import Mathlib

/-!
Verification development for the shipyard-server node/task assignment
subsystem.

The definitions below are a shallow embedding of the code in
`src/shipyard/node/service.py` and `src/shipyard/node/controllers.py`.
The document store (pymongo) is modelled as an in-memory list of
documents; every store primitive used by the code (`find_one`,
`find_one_and_update` with a push or pull modifier and
`ReturnDocument.AFTER`) is modelled as an atomic pure function on that
state.  The feasibility check `shipyard.crane.check_feasibility` is
imported by the service from a module whose body is not part of the
sources; the call site passes it exactly one argument, the candidate
taskset, so the service embedding is parametric in a function
`cf : List Task -> Bool`.

String object ids: the code wraps raw id strings in `ObjectId`, which
raises `InvalidId` on a malformed string (bson accepts 24 hexadecimal
characters).  The embedding checks `isValidObjectId` at exactly the
program points where the code evaluates `ObjectId(...)`.
-/

namespace Shipyard

/-- Resource requirement snapshot of a task, after
`shipyard/task/model.py` (fields used by the spec: CPU core
requirement, optional required architecture, required device ids). -/
structure Task where
  _id : String
  name : String
  cpu : Nat
  cpu_arch : Option String
  devices : List String
deriving DecidableEq

/-- A node document, after `shipyard/node/model.py` (fields visible in
`controllers.py` and the spec data model: id, name, ip, CPU core
count, architecture tag, device ids physically present, and the
ordered taskset). -/
structure Node where
  _id : String
  name : String
  ip : String
  cpu : Nat
  cpu_arch : String
  devices : List String
  tasks : List Task
deriving DecidableEq

/-- The document store state: the `nodes` and `tasks` collections. -/
structure DB where
  nodes : List Node
  tasks : List Task
deriving DecidableEq

/-- The typed failures raised by the service layer
(`shipyard/errors.py` exceptions `NotFound`, `NotFeasible`, bson
`InvalidId`, marshmallow validation failure). -/
inductive Err where
  | invalidId (msg : String)
  | notFound (msg : String)
  | notFeasible (msg : String)
  | validation (msg : String)
deriving DecidableEq

/-- A store access performed by an operation, recorded so that claims
about which documents are read or written before a failure can be
stated. -/
inductive Access where
  | readNode (oid : String)
  | readTask (oid : String)
  | writeNode (oid : String)
deriving DecidableEq

/-- bson `ObjectId` accepts a 24 character hexadecimal string;
`ObjectId(s)` raises `InvalidId` otherwise. -/
def isHexChar (c : Char) : Bool :=
  c.isDigit || (('a' ≤ c) && (c ≤ 'f')) || (('A' ≤ c) && (c ≤ 'F'))

def isValidObjectId (s : String) : Bool :=
  (s.length == 24) && s.toList.all isHexChar

/-- `db.nodes.find_one` keyed by id: first document whose id matches. -/
def findNode (db : DB) (oid : String) : Option Node :=
  db.nodes.find? (fun n => n._id == oid)

/-- `db.tasks.find_one` keyed by id: first document whose id matches. -/
def findTask (db : DB) (oid : String) : Option Task :=
  db.tasks.find? (fun t => t._id == oid)

/-- Replace the first element satisfying `p` by its image under `f`,
returning the new list and the updated element (mongo
`find_one_and_update` with `ReturnDocument.AFTER`); `none` when no
element matches. -/
def updateFirst {α : Type} (p : α → Bool) (f : α → α) : List α → List α × Option α
  | [] => ([], none)
  | a :: as =>
    if p a then (f a :: as, some (f a))
    else (a :: (updateFirst p f as).1, (updateFirst p f as).2)

/-- The read and admission phase of `NodeService.add_task`
(service.py lines 94 to 106): parse both ids, load the node, load the
task, build the candidate taskset `node.tasks + [task]` and apply the
imported feasibility check to it.  Returns the task to be pushed on
success, together with the store reads performed. -/
def attachRead (cf : List Task → Bool) (db : DB) (node_id task_id : String) :
    Except Err Task × List Access :=
  if isValidObjectId node_id = false then
    (.error (.invalidId node_id), [])
  else
    match findNode db node_id with
    | none => (.error (.notFound "No node found with the given ID"), [.readNode node_id])
    | some node =>
      if isValidObjectId task_id = false then
        (.error (.invalidId task_id), [.readNode node_id])
      else
        match findTask db task_id with
        | none =>
          (.error (.notFound "No task found with the given ID"),
           [.readNode node_id, .readTask task_id])
        | some task =>
          if cf (node.tasks ++ [task]) = false then
            (.error (.notFeasible "The new taskset is not feasible"),
             [.readNode node_id, .readTask task_id])
          else
            (.ok task, [.readNode node_id, .readTask task_id])

/-- The update phase of `NodeService.add_task` (service.py lines 108
to 113): `find_one_and_update` pushing the task onto the node document
current at update time, returning the AFTER document.  The source
performs this push unconditionally, with no precondition on the state
read earlier.  When the filter matches no document the source would
feed `None` to the schema loader, which fails validation. -/
def attachFinish (db : DB) (node_id : String) (r : Except Err Task) :
    Except Err Node × DB × List Access :=
  match r with
  | .error e => (.error e, db, [])
  | .ok task =>
    let res := updateFirst (fun n => n._id == node_id)
      (fun n => { n with tasks := n.tasks ++ [task] }) db.nodes
    match res.2 with
    | none => (.error (.validation "updated document is None"), { db with nodes := res.1 },
               [.writeNode node_id])
    | some n2 => (.ok n2, { db with nodes := res.1 }, [.writeNode node_id])

/-- `NodeService.add_task` (service.py lines 81 to 113): the read and
admission phase followed by the unconditional push, on one store
state.  Returns the result, the store state after the call, and the
accesses performed. -/
def add_task (cf : List Task → Bool) (db : DB) (node_id task_id : String) :
    Except Err Node × DB × List Access :=
  let r := attachRead cf db node_id task_id
  let fin := attachFinish db node_id r.1
  (fin.1, fin.2.1, r.2 ++ fin.2.2)

/-- An interleaved execution of two `add_task` calls A and B on the
same node: A performs its read and admission phase, then B performs
its read and admission phase on the same (unchanged, reads do not
mutate) state, then A performs its push, then B performs its push on
the state left by A.  Each of the four steps is one of the atomic
store operations of the source; pymongo guarantees atomicity only per
operation, so this schedule is a possible execution of two concurrent
requests.  Returns the result of A, the result of B and the final
store state. -/
def raceAttach (cf : List Task → Bool) (db : DB) (node_id idA idB : String) :
    Except Err Node × Except Err Node × DB :=
  let rA := (attachRead cf db node_id idA).1
  let rB := (attachRead cf db node_id idB).1
  let finA := attachFinish db node_id rA
  let finB := attachFinish finA.2.1 node_id rB
  (finA.1, finB.1, finB.2.1)

/-- `NodeService.get_by_id` (service.py lines 22 to 33): parse the id,
`find_one`, return `none` when no document matches.  Never raises
`NotFound`. -/
def get_by_id (db : DB) (node_id : String) : Except Err (Option Node) :=
  if isValidObjectId node_id = false then .error (.invalidId node_id)
  else .ok (findNode db node_id)

/-- Modelled from the spec: `NodeService.remove_task` is called by
`delete_node_tasks` (controllers.py line 207) but its body is not
among the sources.  Spec section 4.3: load the node, failing with
`NotFound` when absent, then remove the task with the given id from
the taskset regardless of whether it is present (a mongo pull), and
return the resulting node.  Id parsing mirrors `add_task`. -/
def remove_task (db : DB) (node_id task_id : String) : Except Err Node × DB :=
  if isValidObjectId node_id = false then (.error (.invalidId node_id), db)
  else if isValidObjectId task_id = false then (.error (.invalidId task_id), db)
  else
    let res := updateFirst (fun n => n._id == node_id)
      (fun n => { n with tasks := n.tasks.filter (fun t => t._id != task_id) }) db.nodes
    match res.2 with
    | none => (.error (.notFound "No node found with the given ID"), { db with nodes := res.1 })
    | some n2 => (.ok n2, { db with nodes := res.1 })

/-- Body of an HTTP response: either a marshmallow dump of an optional
node document, or an error object. -/
inductive RespBody where
  | nodeDump (n : Option Node)
  | errMsg (msg : String)
deriving DecidableEq

/-- An HTTP response: status code and body. -/
structure Response where
  status : Nat
  body : RespBody
deriving DecidableEq

/-- The `get_node` controller (controllers.py lines 76 to 96): call
`NodeService.get_by_id` and dump the result at the default 200 status;
map `InvalidId` to 400, `NotFound` to 404 and anything else to 500. -/
def get_node (db : DB) (node_id : String) : Response :=
  match get_by_id db node_id with
  | .ok result => { status := 200, body := .nodeDump result }
  | .error (.invalidId m) => { status := 400, body := .errMsg m }
  | .error (.notFound m) => { status := 404, body := .errMsg m }
  | .error (.notFeasible _) => { status := 500, body := .errMsg "Unable to fetch node." }
  | .error (.validation _) => { status := 500, body := .errMsg "Unable to fetch node." }

/-- Whether a service result is a success. -/
def isOkE {α : Type} : Except Err α → Bool
  | .ok _ => true
  | .error _ => false

/-! ## The Feasibility Evaluator, modelled from the spec

The body of `shipyard.crane.feasibility.check_feasibility` is not part
of the sources; only its call site (service.py line 105) is.  The spec
(section 4.1) describes the evaluation as a pure function of a
capacity descriptor and a candidate taskset, with constraint classes
checked in the fixed order CPU, then architecture, then devices. -/

/-- A capacity or requirement footprint (spec section 2: CPU core
count, architecture tag, device identifiers). -/
structure ResourceDescriptor where
  cpu : Nat
  cpu_arch : String
  devices : List String
deriving DecidableEq

/-- Infeasibility reasons of spec section 4.1. -/
inductive Reason where
  | insufficientCPU
  | architectureMismatch
  | missingDevices (missing : List String)
deriving DecidableEq

/-- Decision value of the Feasibility Evaluator. -/
inductive EvalResult where
  | feasible
  | infeasible (r : Reason)
deriving DecidableEq

/-- Total CPU-core demand of a taskset. -/
def cpuTotal (ts : List Task) : Nat :=
  (ts.map (fun t => t.cpu)).sum

/-- Whether a task's required architecture (if any) matches the
capacity's architecture tag. -/
def archOk (cap : ResourceDescriptor) (t : Task) : Bool :=
  match t.cpu_arch with
  | none => true
  | some a => a == cap.cpu_arch

/-- The devices required by the taskset that are absent from the
capacity's device set. -/
def missingOf (cap : ResourceDescriptor) (ts : List Task) : List String :=
  ((ts.map (fun t => t.devices)).flatten).filter (fun d => (cap.devices.contains d) = false)

/-- Modelled from the spec: the Feasibility Evaluator of section 4.1
(the body of `shipyard.crane.feasibility` is not among the sources).
Checks total CPU demand against the core count, then per-task
architecture requirements, then required devices, reporting the first
failing class in that fixed order. -/
def evaluate (cap : ResourceDescriptor) (ts : List Task) : EvalResult :=
  if cap.cpu < cpuTotal ts then .infeasible .insufficientCPU
  else if (ts.all (archOk cap)) = false then .infeasible .architectureMismatch
  else if ((missingOf cap ts).isEmpty) = false then .infeasible (.missingDevices (missingOf cap ts))
  else .feasible

/-- A node's capacity descriptor. -/
def capacityOf (n : Node) : ResourceDescriptor :=
  { cpu := n.cpu, cpu_arch := n.cpu_arch, devices := n.devices }

/-- The Evaluator decision as a boolean admit/reject. -/
def evalFeasible (cap : ResourceDescriptor) (ts : List Task) : Bool :=
  match evaluate cap ts with
  | .feasible => true
  | .infeasible _ => false

/-- Formalization of claim C3, following the spec words (section 4.1
contract and section 4.2 step 4): the admission decision of
`add_task` is the feasibility evaluation applied to the node's
capacity descriptor together with the candidate taskset.  The claim
asserts that the feasibility check behind the call site behaves this
way. -/
def admissionMatchesEvaluate (cf : List Task → Bool) : Prop :=
  ∀ (db : DB) (node_id task_id : String) (node : Node) (task : Task),
    isValidObjectId node_id = true → isValidObjectId task_id = true →
    findNode db node_id = some node → findTask db task_id = some task →
    (isOkE (add_task cf db node_id task_id).1 = true ↔
      evaluate (capacityOf node) (node.tasks ++ [task]) = EvalResult.feasible)

/-! ## Concrete object ids and scenario data used by witnesses and
counterexamples -/

def oidN : String := "0123456789abcdef01234567"
def oidA : String := "aaaaaaaaaaaaaaaaaaaaaaaa"
def oidB : String := "bbbbbbbbbbbbbbbbbbbbbbbb"
def oidC : String := "cccccccccccccccccccccccc"
def oidMissing : String := "dddddddddddddddddddddddd"

/-- Scenario for claim C1: a node with 4 cores and two tasks needing 2
and 3 cores. -/
def nodeC1 : Node :=
  { _id := oidN, name := "edge1", ip := "10.0.0.1", cpu := 4, cpu_arch := "x86_64",
    devices := [], tasks := [] }

def taskC1A : Task :=
  { _id := oidA, name := "t1a", cpu := 2, cpu_arch := none, devices := [] }

def taskC1B : Task :=
  { _id := oidB, name := "t1b", cpu := 3, cpu_arch := none, devices := [] }

def dbC1 : DB := { nodes := [nodeC1], tasks := [taskC1A, taskC1B] }

/-- The feasibility check most favourable to claim C1: the spec
Evaluator at exactly the capacity of the scenario node. -/
def cfC1 : List Task → Bool := fun ts => evalFeasible (capacityOf nodeC1) ts

/-- Scenario for claim C2 (the spec race example): a node with 4 free
cores and two tasks each needing 3. -/
def nodeC2 : Node :=
  { _id := oidN, name := "edge2", ip := "10.0.0.2", cpu := 4, cpu_arch := "x86_64",
    devices := [], tasks := [] }

def taskC2A : Task :=
  { _id := oidA, name := "t2a", cpu := 3, cpu_arch := none, devices := [] }

def taskC2B : Task :=
  { _id := oidB, name := "t2b", cpu := 3, cpu_arch := none, devices := [] }

def dbC2 : DB := { nodes := [nodeC2], tasks := [taskC2A, taskC2B] }

def cfC2 : List Task → Bool := fun ts => evalFeasible (capacityOf nodeC2) ts

/-- Scenario for claim C3: two stores holding a node with the same id
and the same (empty) taskset but different CPU capacities, and the
same one-core task. -/
def nodeHi : Node :=
  { _id := oidN, name := "big", ip := "10.0.0.3", cpu := 100, cpu_arch := "x86_64",
    devices := [], tasks := [] }

def nodeLo : Node :=
  { _id := oidN, name := "tiny", ip := "10.0.0.4", cpu := 0, cpu_arch := "x86_64",
    devices := [], tasks := [] }

def taskT : Task :=
  { _id := oidC, name := "tt", cpu := 1, cpu_arch := none, devices := [] }

def dbHi : DB := { nodes := [nodeHi], tasks := [taskT] }

def dbLo : DB := { nodes := [nodeLo], tasks := [taskT] }

/-- Scenario for claim C5: a node with 4 cores, one GPU, and two
candidate tasks, one missing a device and one demanding too much
CPU. -/
def nodeC5 : Node :=
  { _id := oidN, name := "edge5", ip := "10.0.0.5", cpu := 4, cpu_arch := "x86_64",
    devices := ["gpu0"], tasks := [] }

def taskC5dev : Task :=
  { _id := oidA, name := "t5d", cpu := 1, cpu_arch := none, devices := ["gpu0", "gpu1"] }

def taskC5cpu : Task :=
  { _id := oidB, name := "t5c", cpu := 5, cpu_arch := none, devices := [] }

def dbC5 : DB := { nodes := [nodeC5], tasks := [taskC5dev, taskC5cpu] }

def cfC5 : List Task → Bool := fun ts => evalFeasible (capacityOf nodeC5) ts

/-- General witness scenario: a node with 8 cores and a GPU, a small
feasible task, an oversized task, and an already assigned task. -/
def taskW : Task :=
  { _id := oidC, name := "tw", cpu := 2, cpu_arch := none, devices := [] }

def taskBigW : Task :=
  { _id := oidB, name := "tbig", cpu := 100, cpu_arch := none, devices := [] }

def taskHeldW : Task :=
  { _id := oidA, name := "theld", cpu := 1, cpu_arch := none, devices := [] }

def nodeW : Node :=
  { _id := oidN, name := "w", ip := "10.0.0.6", cpu := 8, cpu_arch := "x86_64",
    devices := ["gpu0"], tasks := [taskHeldW] }

def dbW : DB := { nodes := [nodeW], tasks := [taskW, taskBigW] }

def cfW : List Task → Bool := fun ts => evalFeasible (capacityOf nodeW) ts

/-- A task violating both the CPU and the device constraint of
`nodeC5`. -/
def taskC5bad : Task :=
  { _id := oidC, name := "t5b", cpu := 5, cpu_arch := none, devices := ["gpu1"] }

/-- An arm64 node used by the evaluation order witness. -/
def nodeArm : Node :=
  { _id := oidN, name := "arm", ip := "10.0.0.7", cpu := 4, cpu_arch := "arm64",
    devices := [], tasks := [] }

/-- A task violating both the architecture and the device constraint
of `nodeArm`, but not its CPU constraint. -/
def taskArmDev : Task :=
  { _id := oidA, name := "tad", cpu := 1, cpu_arch := some "x86_64", devices := ["gpu9"] }

/-- An empty store. -/
def dbEmpty : DB := { nodes := [], tasks := [] }

/-- The node of the witness scenario after a successful attach of
`taskW`. -/
def nodeWPost : Node := { nodeW with tasks := nodeW.tasks ++ [taskW] }

/-- The witness store after a successful attach of `taskW`. -/
def dbWPost : DB := { dbW with nodes := [nodeWPost] }

end Shipyard

deriving instance DecidableEq for Except

namespace Shipyard

/-! ## Store lemmas -/

/-- `find_one_and_update` updates and returns the first matching
document. -/
theorem updateFirst_snd {α : Type} (p : α → Bool) (f : α → α) (l : List α) (a : α)
    (h : l.find? p = some a) : (updateFirst p f l).2 = some (f a) := by
  induction l with
  | nil => simp [List.find?] at h
  | cons b bs ih =>
    cases hpb : p b with
    | true =>
      rw [List.find?_cons_of_pos _ hpb] at h
      simp at h
      subst h
      simp [updateFirst, hpb]
    | false =>
      rw [List.find?_cons_of_neg _ (by simp [hpb])] at h
      simp [updateFirst, hpb, ih h]

/-- After updating the first matching document, a lookup with the same
filter finds the updated document, provided the update preserves the
filter. -/
theorem updateFirst_fst_find {α : Type} (p : α → Bool) (f : α → α) (l : List α) (a : α)
    (h : l.find? p = some a) (hp : p (f a) = true) :
    ((updateFirst p f l).1).find? p = some (f a) := by
  induction l with
  | nil => simp [List.find?] at h
  | cons b bs ih =>
    cases hpb : p b with
    | true =>
      rw [List.find?_cons_of_pos _ hpb] at h
      simp at h
      subst h
      simp [updateFirst, hpb, List.find?_cons_of_pos _ hp]
    | false =>
      rw [List.find?_cons_of_neg _ (by simp [hpb])] at h
      simp [updateFirst, hpb, List.find?_cons, ih h]

/-- An update that fixes the matched document leaves the collection
unchanged. -/
theorem updateFirst_self {α : Type} (p : α → Bool) (f : α → α) (l : List α) (a : α)
    (h : l.find? p = some a) (hf : f a = a) : updateFirst p f l = (l, some a) := by
  induction l with
  | nil => simp [List.find?] at h
  | cons b bs ih =>
    cases hpb : p b with
    | true =>
      rw [List.find?_cons_of_pos _ hpb] at h
      simp at h
      subst h
      simp [updateFirst, hpb, hf]
    | false =>
      rw [List.find?_cons_of_neg _ (by simp [hpb])] at h
      have := ih h
      simp [updateFirst, hpb, this]

/-! ## Service layer lemmas -/

/-- The read and admission phase succeeds and returns the task when
both ids parse, both documents are found and the feasibility check
accepts the candidate taskset. -/
theorem attachRead_ok (cf : List Task → Bool) (db : DB) (node_id task_id : String)
    (node : Node) (task : Task)
    (hn : isValidObjectId node_id = true) (ht : isValidObjectId task_id = true)
    (hfn : findNode db node_id = some node) (hft : findTask db task_id = some task)
    (hcf : cf (node.tasks ++ [task]) = true) :
    attachRead cf db node_id task_id = (.ok task, [.readNode node_id, .readTask task_id]) := by
  simp [attachRead, hn, ht, hfn, hft, hcf]

/-- The push phase appends the task to the node document current at
update time and returns the AFTER document. -/
theorem attachFinish_ok (db : DB) (node_id : String) (t : Task) (node : Node)
    (hfn : findNode db node_id = some node) :
    attachFinish db node_id (.ok t) =
      (.ok { node with tasks := node.tasks ++ [t] },
       { db with nodes := (updateFirst (fun n => n._id == node_id)
           (fun n => { n with tasks := n.tasks ++ [t] }) db.nodes).1 },
       [.writeNode node_id]) := by
  have hfn2 : List.find? (fun n => n._id == node_id) db.nodes = some node := hfn
  have h2 := updateFirst_snd (fun n => n._id == node_id)
      (fun n => { n with tasks := n.tasks ++ [t] }) db.nodes node hfn2
  simp [attachFinish, h2]

/-- A lookup after an id-preserving update of the first matching node
finds the updated node. -/
theorem findNode_after_update (db : DB) (node_id : String) (f : Node → Node) (node : Node)
    (hfn : findNode db node_id = some node) (hid : (f node)._id = node._id) :
    findNode { db with nodes := (updateFirst (fun n => n._id == node_id) f db.nodes).1 } node_id
      = some (f node) := by
  have hfn2 : List.find? (fun n => n._id == node_id) db.nodes = some node := hfn
  have hp : (node._id == node_id) = true := by
    have := List.find?_some hfn2
    simpa using this
  have hpf : ((fun n => n._id == node_id) (f node)) = true := by
    simp only [hid]
    exact hp
  exact updateFirst_fst_find (fun n => n._id == node_id) f db.nodes node hfn2 hpf

/-- Full description of a successful `add_task` run: the candidate was
accepted, the task was pushed, and the AFTER document is returned. -/
theorem add_task_ok_eq (cf : List Task → Bool) (db : DB) (node_id task_id : String)
    (node : Node) (task : Task)
    (hn : isValidObjectId node_id = true) (ht : isValidObjectId task_id = true)
    (hfn : findNode db node_id = some node) (hft : findTask db task_id = some task)
    (hcf : cf (node.tasks ++ [task]) = true) :
    add_task cf db node_id task_id =
      (.ok { node with tasks := node.tasks ++ [task] },
       { db with nodes := (updateFirst (fun n => n._id == node_id)
           (fun n => { n with tasks := n.tasks ++ [task] }) db.nodes).1 },
       [.readNode node_id, .readTask task_id, .writeNode node_id]) := by
  simp [add_task, attachRead_ok cf db node_id task_id node task hn ht hfn hft hcf,
        attachFinish_ok db node_id task node hfn]

/-- The admission decision of `add_task` equals the feasibility check
applied to the candidate taskset. -/
theorem add_task_decision (cf : List Task → Bool) (db : DB) (node_id task_id : String)
    (node : Node) (task : Task)
    (hn : isValidObjectId node_id = true) (ht : isValidObjectId task_id = true)
    (hfn : findNode db node_id = some node) (hft : findTask db task_id = some task) :
    isOkE (add_task cf db node_id task_id).1 = cf (node.tasks ++ [task]) := by
  cases hcf : cf (node.tasks ++ [task]) with
  | true => simp [add_task_ok_eq cf db node_id task_id node task hn ht hfn hft hcf, isOkE]
  | false => simp [add_task, attachRead, attachFinish, hn, ht, hfn, hft, hcf, isOkE]

/-- Inversion of a successful read and admission phase. -/
theorem attachRead_ok_inv (cf : List Task → Bool) (db : DB) (node_id task_id : String)
    (t : Task) (h : (attachRead cf db node_id task_id).1 = .ok t) :
    isValidObjectId node_id = true ∧ isValidObjectId task_id = true ∧
    ∃ node, findNode db node_id = some node ∧ findTask db task_id = some t ∧
      cf (node.tasks ++ [t]) = true := by
  cases hn : isValidObjectId node_id with
  | false => simp [attachRead, hn] at h
  | true =>
    cases hfn : findNode db node_id with
    | none => simp [attachRead, hn, hfn] at h
    | some node =>
      cases ht : isValidObjectId task_id with
      | false => simp [attachRead, hn, hfn, ht] at h
      | true =>
        cases hft : findTask db task_id with
        | none => simp [attachRead, hn, hfn, ht, hft] at h
        | some task =>
          cases hcf : cf (node.tasks ++ [task]) with
          | false => simp [attachRead, hn, hfn, ht, hft, hcf] at h
          | true =>
            simp [attachRead, hn, hfn, ht, hft, hcf] at h
            subst h
            exact ⟨rfl, rfl, node, rfl, rfl, hcf⟩

end Shipyard

namespace Shipyard

/-! ## Claim theorems -/

/-- C4: the Feasibility Evaluator reports the first failing
constraint class in the fixed order CPU, then architecture, then
devices: when total CPU demand exceeds the core count the result is
InsufficientCPU regardless of the other classes, and when the CPU
constraint holds but some task has a mismatched architecture the
result is ArchitectureMismatch regardless of the device class. -/
theorem evaluate_first_failing_class (cap : ResourceDescriptor) (ts : List Task) :
    (cap.cpu < cpuTotal ts → evaluate cap ts = .infeasible .insufficientCPU) ∧
    (cpuTotal ts ≤ cap.cpu → (ts.all (archOk cap)) = false →
      evaluate cap ts = .infeasible .architectureMismatch) := by
  constructor
  · intro h
    simp [evaluate, h]
  · intro h1 h2
    have hlt : ¬ (cap.cpu < cpuTotal ts) := by omega
    simp [evaluate, hlt, h2]

/-- C4 witness: a task violating both the CPU and the device
constraint is reported as InsufficientCPU, and a task violating both
the architecture and the device constraint (CPU fitting) is reported
as ArchitectureMismatch. -/
theorem evaluate_first_failing_class_witness :
    evaluate (capacityOf nodeC5) [taskC5bad] = EvalResult.infeasible Reason.insufficientCPU ∧
    evaluate (capacityOf nodeArm) [taskArmDev] = EvalResult.infeasible Reason.architectureMismatch :=
  ⟨(evaluate_first_failing_class (capacityOf nodeC5) [taskC5bad]).1 (by decide),
   (evaluate_first_failing_class (capacityOf nodeArm) [taskArmDev]).2 (by decide) (by decide)⟩

/-- C6: with well formed ids, a missing node makes add_task fail with
the node NotFound; an existing node with a missing task fails with
the task NotFound; and since the node lookup runs before the task
lookup, when both are absent the node NotFound is the one reported. -/
theorem add_task_not_found_order (cf : List Task → Bool) (db : DB) (node_id task_id : String)
    (hn : isValidObjectId node_id = true) (ht : isValidObjectId task_id = true) :
    (findNode db node_id = none →
      (add_task cf db node_id task_id).1 =
        .error (.notFound ("No node found with the given ID"))) ∧
    (∀ node, findNode db node_id = some node → findTask db task_id = none →
      (add_task cf db node_id task_id).1 =
        .error (.notFound ("No task found with the given ID"))) ∧
    (findNode db node_id = none → findTask db task_id = none →
      (add_task cf db node_id task_id).1 =
        .error (.notFound ("No node found with the given ID"))) := by
  refine ⟨?_, ?_, ?_⟩
  · intro hfn
    simp [add_task, attachRead, attachFinish, hn, hfn]
  · intro node hfn hft
    simp [add_task, attachRead, attachFinish, hn, ht, hfn, hft]
  · intro hfn _
    simp [add_task, attachRead, attachFinish, hn, hfn]

/-- C6 witness: a lookup of an absent node reports the node NotFound,
and an existing node with an absent task reports the task NotFound. -/
theorem add_task_not_found_order_witness :
    (add_task cfW dbW oidMissing oidC).1 =
      .error (.notFound ("No node found with the given ID")) ∧
    (add_task cfW dbW oidN oidMissing).1 =
      .error (.notFound ("No task found with the given ID")) :=
  ⟨(add_task_not_found_order cfW dbW oidMissing oidC (by decide) (by decide)).1 (by decide),
   (add_task_not_found_order cfW dbW oidN oidMissing (by decide) (by decide)).2.1
     nodeW (by decide) (by decide)⟩

/-- C7: a successful attach returns the post update node snapshot,
whose taskset equals the prior taskset with the new task appended at
the end. -/
theorem add_task_appends (cf : List Task → Bool) (db : DB) (node_id task_id : String)
    (node : Node) (task : Task)
    (hn : isValidObjectId node_id = true) (ht : isValidObjectId task_id = true)
    (hfn : findNode db node_id = some node) (hft : findTask db task_id = some task)
    (hcf : cf (node.tasks ++ [task]) = true) :
    (add_task cf db node_id task_id).1 = .ok { node with tasks := node.tasks ++ [task] } := by
  simp [add_task_ok_eq cf db node_id task_id node task hn ht hfn hft hcf]

/-- C7 witness: attaching the small task to the witness node returns
the node with the task appended after the already assigned one. -/
theorem add_task_appends_witness :
    (add_task cfW dbW oidN oidC).1 = .ok nodeWPost :=
  add_task_appends cfW dbW oidN oidC nodeW taskW
    (by decide) (by decide) (by decide) (by decide) (by decide)

/-- C8: removing a task id that is not in the node taskset succeeds
and returns the node unchanged, with the store also unchanged. -/
theorem remove_task_absent_unchanged (db : DB) (node_id task_id : String) (node : Node)
    (hn : isValidObjectId node_id = true) (ht : isValidObjectId task_id = true)
    (hfn : findNode db node_id = some node)
    (habs : ∀ t ∈ node.tasks, (t._id == task_id) = false) :
    remove_task db node_id task_id = (.ok node, db) := by
  have hfn2 : List.find? (fun n => n._id == node_id) db.nodes = some node := hfn
  have hfilter : node.tasks.filter (fun t => t._id != task_id) = node.tasks := by
    apply List.filter_eq_self.mpr
    intro t htm
    simp [bne, habs t htm]
  have hf : (fun n => { n with tasks := n.tasks.filter (fun t => t._id != task_id) }) node
      = node := by
    simp [hfilter]
  have hu := updateFirst_self (fun n => n._id == node_id)
      (fun n => { n with tasks := n.tasks.filter (fun t => t._id != task_id) })
      db.nodes node hfn2 hf
  simp [remove_task, hn, ht, hu]

/-- C8 witness: detaching an id not held by the witness node returns
the node and the store unchanged. -/
theorem remove_task_absent_unchanged_witness :
    remove_task dbW oidN oidMissing = (.ok nodeW, dbW) :=
  remove_task_absent_unchanged dbW oidN oidMissing nodeW
    (by decide) (by decide) (by decide) (by decide)

/-- C10: for a well formed id with no matching node, get_by_id
returns none and never the NotFound failure, so the GET node handler
NotFound branch is not taken and the handler returns a 200 response
built from dumping none. -/
theorem get_by_id_absent_none (db : DB) (node_id : String)
    (hn : isValidObjectId node_id = true) (hfn : findNode db node_id = none) :
    get_by_id db node_id = .ok none ∧
    (∀ m, get_by_id db node_id ≠ .error (.notFound m)) ∧
    get_node db node_id = { status := 200, body := .nodeDump none } := by
  refine ⟨?_, ?_, ?_⟩ <;> simp [get_by_id, get_node, hn, hfn]

/-- C10 witness: fetching a valid id from the empty store yields ok
none at the service and a 200 dump of none at the handler. -/
theorem get_by_id_absent_none_witness :
    get_by_id dbEmpty oidN = .ok none ∧
    (∀ m, get_by_id dbEmpty oidN ≠ .error (.notFound m)) ∧
    get_node dbEmpty oidN = { status := 200, body := .nodeDump none } :=
  get_by_id_absent_none dbEmpty oidN (by decide) (by decide)

end Shipyard

namespace Shipyard

/-- C5 counterexample: two attaches whose candidate tasksets are
infeasible for different Evaluator reasons (a missing device vs
insufficient CPU, with the check taken as the spec Evaluator at the
target node capacity) surface the very same NotFeasible error value:
the reported reason is not carried and MissingDevices is not
distinguished from other infeasibility reasons. -/
theorem add_task_reason_not_distinguished_counterexample :
    evaluate (capacityOf nodeC5) (nodeC5.tasks ++ [taskC5dev]) =
      .infeasible (.missingDevices ["gpu1"]) ∧
    evaluate (capacityOf nodeC5) (nodeC5.tasks ++ [taskC5cpu]) =
      .infeasible .insufficientCPU ∧
    (add_task cfC5 dbC5 oidN oidA).1 =
      .error (.notFeasible ("The new taskset is not feasible")) ∧
    (add_task cfC5 dbC5 oidN oidB).1 =
      .error (.notFeasible ("The new taskset is not feasible")) := by
  decide

/-- C5 (amended): when the feasibility check rejects the candidate
taskset, add_task fails with the NotFeasible error carrying the fixed
source message (no per reason differentiation is possible at the
service, the check returns a bare boolean), and no persisted update is
performed: the store is returned unchanged and only reads appear in
the access log. -/
theorem add_task_infeasible_no_update (cf : List Task → Bool) (db : DB)
    (node_id task_id : String) (node : Node) (task : Task)
    (hn : isValidObjectId node_id = true) (ht : isValidObjectId task_id = true)
    (hfn : findNode db node_id = some node) (hft : findTask db task_id = some task)
    (hcf : cf (node.tasks ++ [task]) = false) :
    add_task cf db node_id task_id =
      (.error (.notFeasible ("The new taskset is not feasible")), db,
       [.readNode node_id, .readTask task_id]) := by
  simp [add_task, attachRead, attachFinish, hn, ht, hfn, hft, hcf]

/-- C5 witness: attaching the oversized task to the witness node
fails with NotFeasible and leaves the store unchanged. -/
theorem add_task_infeasible_no_update_witness :
    add_task cfW dbW oidN oidB =
      (.error (.notFeasible ("The new taskset is not feasible")), dbW,
       [Access.readNode oidN, Access.readTask oidB]) :=
  add_task_infeasible_no_update cfW dbW oidN oidB nodeW taskBigW
    (by decide) (by decide) (by decide) (by decide) (by decide)

/-- C9 counterexample: with a well formed node id naming an existing
node and a malformed task id, the operation is rejected with
InvalidId only after the node document has been read from the store
(the access log of the run is exactly one node read), contradicting
rejection before any store access. -/
theorem add_task_invalid_task_id_after_read_counterexample :
    (add_task cfC1 dbC1 oidN ("zzz")).1 = .error (.invalidId ("zzz")) ∧
    (add_task cfC1 dbC1 oidN ("zzz")).2.2 = [Access.readNode oidN] := by
  decide

/-- C9 (amended): a malformed node id is rejected with InvalidId
before any store access and without mutation; a malformed task id is
likewise rejected without mutation and before any task read or any
write, but only after the node document has been read. -/
theorem add_task_invalid_id_rejection (cf : List Task → Bool) (db : DB)
    (node_id task_id : String) :
    (isValidObjectId node_id = false →
      add_task cf db node_id task_id = (.error (.invalidId node_id), db, [])) ∧
    (∀ node, isValidObjectId node_id = true → findNode db node_id = some node →
      isValidObjectId task_id = false →
      add_task cf db node_id task_id =
        (.error (.invalidId task_id), db, [.readNode node_id])) := by
  constructor
  · intro hn
    simp [add_task, attachRead, attachFinish, hn]
  · intro node hn hfn ht
    simp [add_task, attachRead, attachFinish, hn, hfn, ht]

/-- C9 witness: a malformed node id is rejected with an empty access
log; a malformed task id on an existing node is rejected after
exactly the node read, with the store unchanged in both cases. -/
theorem add_task_invalid_id_rejection_witness :
    add_task cfW dbW ("not-an-id") oidC = (.error (.invalidId ("not-an-id")), dbW, []) ∧
    add_task cfW dbW oidN ("not-an-id") =
      (.error (.invalidId ("not-an-id")), dbW, [Access.readNode oidN]) :=
  ⟨(add_task_invalid_id_rejection cfW dbW ("not-an-id") oidC).1 (by decide),
   (add_task_invalid_id_rejection cfW dbW oidN ("not-an-id")).2 nodeW
     (by decide) (by decide) (by decide)⟩

end Shipyard

namespace Shipyard

/-- C1 counterexample: even with the feasibility check taken to be
the spec Evaluator at exactly the capacity of the target node, the
interleaving of two add_task calls (both reads and admission checks
before both pushes) makes both mutations succeed and leaves the node
holding tasks with total CPU demand 5 on 4 cores: the CPU sum
invariant does not survive every successful mutation. -/
theorem add_task_cpu_invariant_counterexample :
    isOkE (raceAttach cfC1 dbC1 oidN oidA oidB).1 = true ∧
    isOkE (raceAttach cfC1 dbC1 oidN oidA oidB).2.1 = true ∧
    findNode (raceAttach cfC1 dbC1 oidN oidA oidB).2.2 oidN =
      some { nodeC1 with tasks := [taskC1A, taskC1B] } ∧
    nodeC1.cpu < cpuTotal [taskC1A, taskC1B] := by
  decide

/-- C1 (amended): what a successful add_task does guarantee: the
feasibility check accepted the candidate taskset built from the node
state read before the update, and the returned snapshot taskset is
that read taskset with the task appended.  The CPU sum bound of the
spec is not established by the code: the check receives no capacity
descriptor and the push is unconditional, so interleavings can
overcommit (see the counterexample). -/
theorem add_task_success_read_state (cf : List Task → Bool) (db : DB)
    (node_id task_id : String) (n2 : Node) (db2 : DB) (log : List Access)
    (h : add_task cf db node_id task_id = (.ok n2, db2, log)) :
    ∃ node task, findNode db node_id = some node ∧ findTask db task_id = some task ∧
      cf (node.tasks ++ [task]) = true ∧ n2.tasks = node.tasks ++ [task] := by
  cases hr : (attachRead cf db node_id task_id).1 with
  | error e =>
    exfalso
    have hbad : (add_task cf db node_id task_id).1 = .error e := by
      simp [add_task, hr, attachFinish]
    rw [h] at hbad
    simp at hbad
  | ok t =>
    obtain ⟨hn, ht, node, hfn, hft, hcf⟩ := attachRead_ok_inv cf db node_id task_id t hr
    refine ⟨node, t, hfn, hft, hcf, ?_⟩
    have h1 : (add_task cf db node_id task_id).1 =
        .ok { node with tasks := node.tasks ++ [t] } := by
      simp [add_task, hr, attachFinish_ok db node_id t node hfn]
    rw [h] at h1
    simp at h1
    rw [h1]

/-- C1 witness: a successful concrete attach, from which the read
state, the accepted candidate and the appended taskset are
recovered. -/
theorem add_task_success_read_state_witness :
    ∃ node task, findNode dbW oidN = some node ∧ findTask dbW oidC = some task ∧
      cfW (node.tasks ++ [task]) = true ∧ nodeWPost.tasks = node.tasks ++ [task] := by
  have h : add_task cfW dbW oidN oidC =
      (.ok nodeWPost, dbWPost,
       [Access.readNode oidN, Access.readTask oidC, Access.writeNode oidN]) := by
    decide
  exact add_task_success_read_state cfW dbW oidN oidC nodeWPost dbWPost
    [Access.readNode oidN, Access.readTask oidC, Access.writeNode oidN] h

/-- C2 counterexample: the spec race scenario (a node with 4 free
cores, two tasks each needing 3, the check being the spec Evaluator
at this node capacity): each attach is individually feasible against
the same prior state, yet under the read-read-push-push interleaving
both attaches succeed, so it is not the case that at most one
succeeds. -/
theorem race_both_attaches_succeed_counterexample :
    cfC2 (nodeC2.tasks ++ [taskC2A]) = true ∧
    cfC2 (nodeC2.tasks ++ [taskC2B]) = true ∧
    isOkE (raceAttach cfC2 dbC2 oidN oidA oidB).1 = true ∧
    isOkE (raceAttach cfC2 dbC2 oidN oidA oidB).2.1 = true := by
  decide

/-- C2 (amended): the persisted append of add_task is unconditional
(a plain push with no compare and swap against the state read in step
1 and no retry), so whenever two attaches on the same node each pass
their read and admission phase against the same prior state, the
read-read-push-push interleaving makes both succeed, and both tasks
end up appended to the node document. -/
theorem raceAttach_both_succeed (cf : List Task → Bool) (db : DB)
    (node_id idA idB : String) (node : Node) (tA tB : Task)
    (hA : (attachRead cf db node_id idA).1 = .ok tA)
    (hB : (attachRead cf db node_id idB).1 = .ok tB)
    (hfn : findNode db node_id = some node) :
    isOkE (raceAttach cf db node_id idA idB).1 = true ∧
    isOkE (raceAttach cf db node_id idA idB).2.1 = true ∧
    findNode (raceAttach cf db node_id idA idB).2.2 node_id =
      some { node with tasks := (node.tasks ++ [tA]) ++ [tB] } := by
  have heA := attachFinish_ok db node_id tA node hfn
  have hfnA : findNode { db with nodes := (updateFirst (fun n => n._id == node_id)
      (fun n => { n with tasks := n.tasks ++ [tA] }) db.nodes).1 } node_id
      = some { node with tasks := node.tasks ++ [tA] } :=
    findNode_after_update db node_id (fun n => { n with tasks := n.tasks ++ [tA] }) node hfn rfl
  have heB := attachFinish_ok _ node_id tB _ hfnA
  have hfnB := findNode_after_update _ node_id
      (fun n => { n with tasks := n.tasks ++ [tB] }) _ hfnA rfl
  refine ⟨?_, ?_, ?_⟩
  · simp [raceAttach, hA, hB, heA, heB, isOkE]
  · simp [raceAttach, hA, hB, heA, heB, isOkE]
  · simp only [raceAttach, hA, hB, heA, heB]
    simpa using hfnB

/-- C2 amended witness: in the concrete spec race scenario both
attaches succeed and the final node document holds both tasks. -/
theorem raceAttach_both_succeed_witness :
    isOkE (raceAttach cfC2 dbC2 oidN oidA oidB).1 = true ∧
    isOkE (raceAttach cfC2 dbC2 oidN oidA oidB).2.1 = true ∧
    findNode (raceAttach cfC2 dbC2 oidN oidA oidB).2.2 oidN =
      some { nodeC2 with tasks := (nodeC2.tasks ++ [taskC2A]) ++ [taskC2B] } :=
  raceAttach_both_succeed cfC2 dbC2 oidN oidA oidB nodeC2 taskC2A taskC2B
    (by decide) (by decide) (by decide)

/-- C3 counterexample: no one argument feasibility check can realise
the claimed decision rule, because the call site passes only the
candidate taskset: the stores dbHi and dbLo hold nodes that differ
only in CPU capacity (100 vs 0 cores) while sharing the same (empty)
taskset, so any check must give the two attaches of the same one core
task the same decision, while the spec evaluation at the two
capacities differs. -/
theorem add_task_capacity_not_input_counterexample :
    ¬ ∃ cf : List Task → Bool, admissionMatchesEvaluate cf := by
  rintro ⟨cf, hclaim⟩
  have h1 := hclaim dbHi oidN oidC nodeHi taskT (by decide) (by decide) (by decide) (by decide)
  have h2 := hclaim dbLo oidN oidC nodeLo taskT (by decide) (by decide) (by decide) (by decide)
  have d1 := add_task_decision cf dbHi oidN oidC nodeHi taskT
    (by decide) (by decide) (by decide) (by decide)
  have d2 := add_task_decision cf dbLo oidN oidC nodeLo taskT
    (by decide) (by decide) (by decide) (by decide)
  have e1 : evaluate (capacityOf nodeHi) (nodeHi.tasks ++ [taskT]) = EvalResult.feasible := by
    decide
  have e2 : evaluate (capacityOf nodeLo) (nodeLo.tasks ++ [taskT]) ≠ EvalResult.feasible := by
    decide
  have hokHi : isOkE (add_task cf dbHi oidN oidC).1 = true := h1.mpr e1
  rw [d1] at hokHi
  have hokLo : isOkE (add_task cf dbLo oidN oidC).1 = true := by
    rw [d2]
    exact hokHi
  exact e2 (h2.mp hokLo)

/-- C3 (amended): the admission decision of add_task is the imported
check applied to the candidate taskset alone (the node current tasks
plus the new task); the node capacity descriptor is not an input to
the decision: any two stores whose target nodes hold equal tasksets
and whose task lookups yield the same task receive identical
decisions, whatever their capacities. -/
theorem add_task_decision_ignores_capacity (cf : List Task → Bool)
    (db1 db2 : DB) (nid1 tid1 nid2 tid2 : String)
    (node1 node2 : Node) (task : Task)
    (hn1 : isValidObjectId nid1 = true) (ht1 : isValidObjectId tid1 = true)
    (hfn1 : findNode db1 nid1 = some node1) (hft1 : findTask db1 tid1 = some task)
    (hn2 : isValidObjectId nid2 = true) (ht2 : isValidObjectId tid2 = true)
    (hfn2 : findNode db2 nid2 = some node2) (hft2 : findTask db2 tid2 = some task)
    (htasks : node1.tasks = node2.tasks) :
    isOkE (add_task cf db1 nid1 tid1).1 = isOkE (add_task cf db2 nid2 tid2).1 := by
  rw [add_task_decision cf db1 nid1 tid1 node1 task hn1 ht1 hfn1 hft1,
      add_task_decision cf db2 nid2 tid2 node2 task hn2 ht2 hfn2 hft2, htasks]

/-- C3 amended witness: the 100 core and the 0 core node, holding
equal tasksets, receive the same admission decision for the same
task. -/
theorem add_task_decision_ignores_capacity_witness :
    isOkE (add_task cfW dbHi oidN oidC).1 = isOkE (add_task cfW dbLo oidN oidC).1 :=
  add_task_decision_ignores_capacity cfW dbHi dbLo oidN oidC oidN oidC nodeHi nodeLo taskT
    (by decide) (by decide) (by decide) (by decide) (by decide) (by decide)
    (by decide) (by decide) (by decide)

end Shipyard
